import Mathlib

/-!
# Verification of the crop-detection dashboard core logic

This file gives a shallow embedding, in Lean 4, of the core logic of the
crop-detection React dashboard and proves properties of it.

The repository contains two revisions of the same component:
* `src/src/App.jsx` — embedded below under namespace `AppJsx`;
* `src/unnamed/part_000` — a later revision of the same component (its
  comments mark several behaviours of `App.jsx` as fixed), embedded below
  under namespace `Part000`.

JavaScript numbers are modelled as rationals (`ℚ`); a field that may be
`undefined` is modelled as `Option ℚ`.  The decimal literals appearing in
the sources (6.5, 2.5, …) are exact in binary floating point or are only
ever compared/defaulted, so `ℚ` is a faithful carrier for every value the
claims touch.  Event-driven behaviour (debounced search, in-flight fetches)
is modelled as explicit state machines driven by lists of events, matching
the single-threaded event-loop semantics of the browser.
-/

/-! ## JavaScript value helpers -/

/-- JavaScript `x || d` for a possibly-undefined number `x`: `undefined`
and `0` are falsy, every other number is truthy. -/
def jsOr (x : Option ℚ) (d : ℚ) : ℚ :=
  match x with
  | none => d
  | some v => if v = 0 then d else v

/-- JavaScript truthiness of a possibly-undefined number: `undefined` and
`0` are falsy. -/
def jsTruthy (x : Option ℚ) : Bool :=
  match x with
  | none => false
  | some v => !(v == 0)

/-- The decimal digit character for `n < 10`. -/
def digitChar (n : Nat) : Char := Char.ofNat (48 + n)

/-- Fuel-driven accumulation of the decimal digits of `n` (most significant
first once the accumulator is read off). -/
def natToStrAux : Nat → Nat → List Char → List Char
  | 0, _, acc => acc
  | fuel+1, n, acc => if n = 0 then acc else natToStrAux fuel (n / 10) (digitChar (n % 10) :: acc)

/-- Decimal rendering of a natural number. -/
def natToStr (n : Nat) : String :=
  if n = 0 then "0" else ⟨natToStrAux (n + 1) n []⟩

/-- Exactly `d` decimal digits of `n` (with leading zeros), most
significant first. -/
def fracDigits : Nat → Nat → List Char
  | 0, _ => []
  | k+1, n => fracDigits k (n / 10) ++ [digitChar (n % 10)]

/-- JavaScript `Number.prototype.toFixed(d)`: the number scaled by `10^d`
and rounded to the nearest integer (ties towards the larger integer, as in
ECMA-262), rendered with `d` digits after the decimal point. -/
def toFixed (d : Nat) (q : ℚ) : String :=
  let scaled : ℤ := ⌊q * (10 : ℚ) ^ d + 1/2⌋
  let sign := if scaled < 0 then "-" else ""
  let m := scaled.natAbs
  let ip := m / 10 ^ d
  let fp := m % 10 ^ d
  if d = 0 then sign ++ natToStr ip
  else sign ++ natToStr ip ++ "." ++ ⟨fracDigits d fp⟩

/-- JavaScript `String.prototype.toLowerCase()` (ASCII range, which covers
every string the embedded code compares). -/
def strLower (s : String) : String := ⟨s.data.map Char.toLower⟩

/-- JavaScript `String.prototype.startsWith`. -/
def jsStartsWith (s p : String) : Bool := List.isPrefixOf p.data s.data

/-! ## Data model

`SoilSample` as delivered by the backend: every numeric field may be
absent.  The derived records mirror the object literals built by the
sources. -/

/-- A backend soil object; each field may be absent (`undefined`). -/
structure Soil where
  ph : Option ℚ
  soc : Option ℚ
  nitrogen : Option ℚ
  sand : Option ℚ
  silt : Option ℚ
  clay : Option ℚ
deriving DecidableEq

/-- An entry of the `issues` list pushed by `getHealthScore`. -/
structure Issue where
  message : String
  severity : String
deriving DecidableEq

/-- An entry of the `strengths` list pushed by `getHealthScore`. -/
structure Strength where
  message : String
deriving DecidableEq

/-- The record returned by `getHealthScore` for a present soil sample. -/
structure HealthAssessment where
  score : ℚ
  issues : List Issue
  strengths : List Strength
deriving DecidableEq

/-- A fertilizer recommendation as pushed by `getFertilizerPlan`. -/
structure FertRec where
  nutrient : String
  priority : String
  amount : String
  fertilizer : String
  current : String
  target : String
  timing : String
deriving DecidableEq

namespace Part000

/-- `getTextureClass` of `src/unnamed/part_000` (lines 52–59): both inputs
defaulted through `|| 0`; `"Unknown"` iff the defaulted values sum to 0,
then the clay rule before the sand rule. -/
def getTextureClass (sand clay : Option ℚ) : String :=
  let s := jsOr sand 0
  let c := jsOr clay 0
  if s + c = 0 then "Unknown"
  else if c ≥ 40 then "Clay"
  else if s > 45 then "Sandy Loam"
  else "Loam"

/-- `getHealthScore` of `src/unnamed/part_000` (lines 62–101).  A missing
soil object yields `none`; otherwise each field is defaulted through `||`
inside the function and the three checks run in source order.  The
sequential `score -= …` / `push` statements of the source are rendered as
one contribution per check, concatenated in the same order. -/
def getHealthScore (soil? : Option Soil) : Option HealthAssessment :=
  match soil? with
  | none => none
  | some soil =>
    let ph := jsOr soil.ph 6.5
    let soc := jsOr soil.soc 20
    let nitrogen := jsOr soil.nitrogen 2.5
    let phDed : ℚ := if ph < 6 then 15 else if ph > 7.5 then 15 else 0
    let phIssues : List Issue :=
      if ph < 6 then [⟨"Acidic Soil (pH " ++ toFixed 1 ph ++ ")", "medium"⟩]
      else if ph > 7.5 then [⟨"Alkaline Soil (pH " ++ toFixed 1 ph ++ ")", "medium"⟩]
      else []
    let phStrengths : List Strength :=
      if ph < 6 then [] else if ph > 7.5 then [] else [⟨"pH is in optimal range"⟩]
    let socDed : ℚ := if soc < 15 then 20 else 0
    let socIssues : List Issue := if soc < 15 then [⟨"Low organic matter", "high"⟩] else []
    let socStrengths : List Strength := if soc < 15 then [] else [⟨"Good organic matter"⟩]
    let nDed : ℚ := if nitrogen < 2 then 15 else 0
    let nIssues : List Issue := if nitrogen < 2 then [⟨"Low Nitrogen", "medium"⟩] else []
    some { score := max 0 (100 - phDed - socDed - nDed),
           issues := phIssues ++ socIssues ++ nIssues,
           strengths := phStrengths ++ socStrengths }

/-- The sum of the three deductions `getHealthScore` applies, one per
check, for a present soil sample. -/
def healthDeductions (soil : Soil) : ℚ :=
  (if jsOr soil.ph 6.5 < 6 then 15 else if jsOr soil.ph 6.5 > 7.5 then 15 else 0)
    + (if jsOr soil.soc 20 < 15 then 20 else 0)
    + (if jsOr soil.nitrogen 2.5 < 2 then 15 else 0)

/-- `getFertilizerPlan` of `src/unnamed/part_000` (lines 103–122): fields
defaulted through `||` inside the function, nitrogen check pushed before
the pH check, pH recommendation guarded by `ph < 6.0 && ph > 0`. -/
def getFertilizerPlan (soil? : Option Soil) : List FertRec :=
  match soil? with
  | none => []
  | some soil =>
    let ph := jsOr soil.ph 6.5
    let nitrogen := jsOr soil.nitrogen 2.5
    let plan : List FertRec :=
      if nitrogen < 2 then
        [{ nutrient := "Nitrogen (N)", priority := "HIGH", amount := "80-100 lbs/ac",
           fertilizer := "Urea (46-0-0)", current := toFixed 2 nitrogen,
           target := "3.5", timing := "Split application at planting" }]
      else []
    if ph < 6 ∧ ph > 0 then
      plan ++ [{ nutrient := "pH Adjustment", priority := "HIGH", amount := "2-3 tons/ac",
                 fertilizer := "Ag Limestone", current := toFixed 1 ph,
                 target := "6.5", timing := "Fall application" }]
    else plan

end Part000

namespace AppJsx

/-- `getTextureClass` of `src/src/App.jsx` (lines 52–57): `"Unknown"`
whenever either input is falsy (`undefined` or `0`). -/
def getTextureClass (sand clay : Option ℚ) : String :=
  if !(jsTruthy sand) || !(jsTruthy clay) then "Unknown"
  else if (clay.getD 0) ≥ 40 then "Clay"
  else if (sand.getD 0) > 45 then "Sandy Loam"
  else "Loam"

/-- `getHealthScore` of `src/src/App.jsx` (lines 59–70).  A missing soil
object yields `{score: 0, issues: [], strengths: []}`; fields are read
directly off the sample, and a comparison against an absent field is false
(NaN semantics), which lands in the final `else` of each check. -/
def getHealthScore (soil? : Option Soil) : HealthAssessment :=
  match soil? with
  | none => { score := 0, issues := [], strengths := [] }
  | some soil =>
    let phDed : ℚ :=
      match soil.ph with
      | none => 0
      | some v => if v < 6 then 15 else if v > 7.5 then 15 else 0
    let phIssues : List Issue :=
      match soil.ph with
      | none => []
      | some v =>
        if v < 6 then [⟨"Acidic Soil (pH " ++ toFixed 1 v ++ ")", "medium"⟩]
        else if v > 7.5 then [⟨"Alkaline Soil (pH " ++ toFixed 1 v ++ ")", "medium"⟩]
        else []
    let phStrengths : List Strength :=
      match soil.ph with
      | none => [⟨"pH is in optimal range"⟩]
      | some v => if v < 6 then [] else if v > 7.5 then [] else [⟨"pH is in optimal range"⟩]
    let socDed : ℚ := match soil.soc with | none => 0 | some v => if v < 15 then 20 else 0
    let socIssues : List Issue :=
      match soil.soc with
      | none => []
      | some v => if v < 15 then [⟨"Low organic matter", "high"⟩] else []
    let socStrengths : List Strength :=
      match soil.soc with
      | none => [⟨"Good organic matter"⟩]
      | some v => if v < 15 then [] else [⟨"Good organic matter"⟩]
    let nDed : ℚ := match soil.nitrogen with | none => 0 | some v => if v < 2 then 15 else 0
    let nIssues : List Issue :=
      match soil.nitrogen with
      | none => []
      | some v => if v < 2 then [⟨"Low Nitrogen", "medium"⟩] else []
    { score := max 0 (100 - phDed - socDed - nDed),
      issues := phIssues ++ socIssues ++ nIssues,
      strengths := phStrengths ++ socStrengths }

end AppJsx

/-! ## Address search: ranking, debounce and in-flight requests

`handleAddressChange` is identical in both revisions (`src/src/App.jsx`
lines 207–226, `src/unnamed/part_000` lines 373–392).  The component state
it touches, the single debounce timer slot (`searchTimeout.current`) and
the fetches it starts are modelled as an explicit state machine.  Timer
and fetch completions are separate events, so event lists can express any
interleaving the single-threaded event loop allows. -/

/-- A geocoding result as returned by the provider. -/
structure NominatimItem where
  display_name : String
deriving DecidableEq

/-- A ranked suggestion `{...item, rankScore}`. -/
structure RankedItem where
  display_name : String
  rankScore : Int
deriving DecidableEq

/-- Stable descending insertion by `rankScore`: an element is placed before
the first element whose score is at most its own, so equal scores keep
their original (provider) order — the behaviour of the stable
`sort((a, b) => b.rankScore - a.rankScore)`. -/
def insertByScoreDesc (x : RankedItem) : List RankedItem → List RankedItem
  | [] => [x]
  | y :: ys => if y.rankScore ≤ x.rankScore then x :: y :: ys else y :: insertByScoreDesc x ys

/-- Stable sort, descending by `rankScore`. -/
def sortByScoreDesc (l : List RankedItem) : List RankedItem :=
  l.foldr insertByScoreDesc []

/-- The ranking block of `handleAddressChange`: score 100 if the lowercased
display name starts with the lowercased query, else 0; stable-sorted
descending; truncated to the top 5. -/
def rankSuggestions (val : String) (data : List NominatimItem) : List RankedItem :=
  (sortByScoreDesc (data.map fun item =>
    { display_name := item.display_name,
      rankScore := if jsStartsWith (strLower item.display_name) (strLower val) then 100 else 0 })).take 5

/-- What the search fetch delivers: a JSON array, a non-array JSON value,
or a thrown error (network failure or malformed JSON). -/
inductive SearchPayload where
  | arrayData (data : List NominatimItem)
  | nonArray
  | netError
deriving DecidableEq

/-- The component state touched by the search flow, plus bookkeeping for
the debounce timer slot and the in-flight fetches. -/
structure SearchState where
  address : String
  suggestions : List RankedItem
  showSuggestions : Bool
  isSearching : Bool
  timerCounter : Nat
  pendingTimer : Option (Nat × String)
  fetchCounter : Nat
  inflight : List (Nat × String)
  issued : List String
deriving DecidableEq

/-- Initial search state. -/
def initSearch : SearchState :=
  { address := "", suggestions := [], showSuggestions := false, isSearching := false,
    timerCounter := 0, pendingTimer := none, fetchCounter := 0, inflight := [], issued := [] }

/-- `handleAddressChange(val)`: `setAddress(val)`; inputs shorter than 3
characters only hide the dropdown and return; otherwise the pending
debounce timer (if any) is cleared and a new 400 ms timer is scheduled for
this query. -/
def handleAddressChange (s : SearchState) (val : String) : SearchState :=
  let s1 := { s with address := val }
  if val.length < 3 then { s1 with showSuggestions := false }
  else
    let s2 := { s1 with pendingTimer := none }
    let s3 := { s2 with isSearching := true }
    { s3 with pendingTimer := some (s3.timerCounter, val), timerCounter := s3.timerCounter + 1 }

/-- The debounce timer with identifier `id` fires: its callback issues the
geocoding fetch for the query captured when it was scheduled. -/
def fireTimer (s : SearchState) (id : Nat) : SearchState :=
  match s.pendingTimer with
  | none => s
  | some (tid, val) =>
    if tid = id then
      { s with pendingTimer := none,
               inflight := s.inflight ++ [(s.fetchCounter, val)],
               fetchCounter := s.fetchCounter + 1,
               issued := s.issued ++ [val] }
    else s

/-- The fetch with identifier `id` completes with `payload`, running the
rest of the timer callback: on an array, rank, store and show; on a
non-array, store the empty ranking; on a thrown error, clear suggestions;
in every case `finally` clears the searching flag.  The response is
applied unconditionally — the code keeps no marker of which request is
current. -/
def applySearchResponse (s : SearchState) (id : Nat) (payload : SearchPayload) : SearchState :=
  match s.inflight.find? (fun r => r.1 == id) with
  | none => s
  | some (_, val) =>
    let s1 := { s with inflight := s.inflight.filter (fun r => !(r.1 == id)) }
    match payload with
    | .arrayData data =>
      let ranked := rankSuggestions val data
      { s1 with suggestions := ranked, showSuggestions := decide (0 < ranked.length),
                isSearching := false }
    | .nonArray =>
      { s1 with suggestions := [], showSuggestions := false, isSearching := false }
    | .netError =>
      { s1 with suggestions := [], isSearching := false }

/-- Events of the search flow. -/
inductive SearchEvent where
  | input (val : String)
  | timerFire (id : Nat)
  | response (id : Nat) (payload : SearchPayload)

/-- One event-loop step of the search flow. -/
def stepSearch (s : SearchState) : SearchEvent → SearchState
  | .input val => handleAddressChange s val
  | .timerFire id => fireTimer s id
  | .response id payload => applySearchResponse s id payload

/-- Run the search flow over a list of events. -/
def runSearch (s : SearchState) (es : List SearchEvent) : SearchState :=
  es.foldl stepSearch s

/-! ## Field analysis: fetch, normalization and published state

`fetchAnalysisFromAzure` of `src/unnamed/part_000` (lines 286–322; the
`App.jsx` revision at lines 152–173 differs only in using the raw backend
soil without the normalization block).  Clicking "Run Field Analysis"
starts a fetch; its resolution — success or failure — is a separate event,
so event lists can express late arrivals of superseded fetches. -/

/-- The feature properties read off the clicked polygon. -/
structure FeatureProps where
  cropType : Int
  csbacres : Option ℚ
  cnty : String
deriving DecidableEq

/-- A crop-history entry `{crop, code, acres}`. -/
structure HistEntry where
  crop : String
  code : Int
  acres : Option ℚ
deriving DecidableEq

/-- Insert-or-overwrite the entry for a year in the history map
(`history[CURRENT_YEAR] = …`). -/
def upsertYear (year : Nat) (e : HistEntry) : List (Nat × HistEntry) → List (Nat × HistEntry)
  | [] => [(year, e)]
  | (y, e0) :: rest => if y = year then (y, e) :: rest else (y, e0) :: upsertYear year e rest

/-- A backend crop recommendation. -/
structure CropRec where
  name : String
  reason : Option String
  score : ℚ
deriving DecidableEq

/-- The JSON body of a successful analysis response; every part may be
absent. -/
structure AnalysisData where
  soil : Option Soil
  history : Option (List (Nat × HistEntry))
  recommendations : Option (List CropRec)
deriving DecidableEq

/-- The arguments `fetchAnalysisFromAzure(lat, lon, cropName, props)` is
called with from the popup button of a click. -/
structure ClickReq where
  lat : ℚ
  lon : ℚ
  cropName : String
  props : FeatureProps
deriving DecidableEq

/-- The object passed to `setFieldData` on a successful analysis fetch. -/
structure FieldData where
  cropName : String
  county : String
  acres : Option ℚ
  history : List (Nat × HistEntry)
  soil : Soil
  recommendations : List CropRec
  texture : String
  healthData : Option HealthAssessment
  fertilizerPlan : List FertRec
  locLat : ℚ
  locLon : ℚ
deriving DecidableEq

namespace Part000

/-- The soil-normalization block of `fetchAnalysisFromAzure`
(`src/unnamed/part_000` lines 298–304): a missing `soil` object is
replaced by `{ph: 6.5, soc: 20, nitrogen: 2.5, clay: 25, sand: 35}` (no
`silt` key), and a strictly-`undefined` `silt` is completed to
`Math.max(0, 100 - (sand || 0) - (clay || 0))`. -/
def normalizeSoil (dataSoil : Option Soil) : Soil :=
  let soil := dataSoil.getD
    { ph := some 6.5, soc := some 20, nitrogen := some 2.5,
      sand := some 35, silt := none, clay := some 25 }
  match soil.silt with
  | none => { soil with silt := some (max 0 (100 - jsOr soil.sand 0 - jsOr soil.clay 0)) }
  | some _ => soil

/-- The object built and published by `setFieldData` after a successful
fetch for click `req` with body `data`: history defaulted and the current
year (2022) injected, soil normalized, and the derived fields computed
from the normalized soil. -/
def buildFieldData (req : ClickReq) (data : AnalysisData) : FieldData :=
  let history := upsertYear 2022
    { crop := req.cropName, code := req.props.cropType, acres := req.props.csbacres }
    (data.history.getD [])
  let soil := normalizeSoil data.soil
  { cropName := req.cropName, county := req.props.cnty, acres := req.props.csbacres,
    history := history, soil := soil,
    recommendations := data.recommendations.getD [],
    texture := getTextureClass soil.sand soil.clay,
    healthData := getHealthScore (some soil),
    fertilizerPlan := getFertilizerPlan (some soil),
    locLat := req.lat, locLon := req.lon }

end Part000

/-- The component state touched by the analysis flow: the loading marker,
the drawer flag, the published result, the count of `alert("Analysis
failed.")` calls, plus bookkeeping for in-flight fetches and the log of
requests issued (the code never retries, so `issued` grows only on
clicks). -/
structure AnalysisState where
  loading : Bool
  showAnalytics : Bool
  fieldData : Option FieldData
  alerts : Nat
  fetchCounter : Nat
  inflight : List (Nat × ClickReq)
  issued : List ClickReq
deriving DecidableEq

/-- Initial analysis state. -/
def initAnalysis : AnalysisState :=
  { loading := false, showAnalytics := false, fieldData := none, alerts := 0,
    fetchCounter := 0, inflight := [], issued := [] }

/-- The synchronous part of `fetchAnalysisFromAzure`: set loading, open the
drawer and issue the fetch. -/
def startAnalysisFetch (s : AnalysisState) (req : ClickReq) : AnalysisState :=
  { s with loading := true, showAnalytics := true,
           inflight := s.inflight ++ [(s.fetchCounter, req)],
           fetchCounter := s.fetchCounter + 1,
           issued := s.issued ++ [req] }

/-- The analysis fetch `id` settles.  On success the result object is built
and published unconditionally (there is no marker of which click is
current); on failure (`!response.ok` throw, network error or JSON error)
the catch block alerts; `finally` clears loading in both cases.  No new
request is ever issued here. -/
def applyAnalysisResponse (s : AnalysisState) (id : Nat)
    (out : Except String AnalysisData) : AnalysisState :=
  match s.inflight.find? (fun r => r.1 == id) with
  | none => s
  | some (_, req) =>
    let s1 := { s with inflight := s.inflight.filter (fun r => !(r.1 == id)) }
    match out with
    | .ok data => { s1 with fieldData := some (Part000.buildFieldData req data), loading := false }
    | .error _ => { s1 with alerts := s1.alerts + 1, loading := false }

/-- Events of the analysis flow. -/
inductive AnalysisEvent where
  | click (req : ClickReq)
  | response (id : Nat) (out : Except String AnalysisData)

/-- One event-loop step of the analysis flow. -/
def stepAnalysis (s : AnalysisState) : AnalysisEvent → AnalysisState
  | .click req => startAnalysisFetch s req
  | .response id out => applyAnalysisResponse s id out

/-- Run the analysis flow over a list of events. -/
def runAnalysis (s : AnalysisState) (es : List AnalysisEvent) : AnalysisState :=
  es.foldl stepAnalysis s

/-! ## Concrete inputs used by witnesses and counterexamples -/

/-- A soil sample with every field absent. -/
def soilAllAbsent : Soil := ⟨none, none, none, none, none, none⟩

/-- A soil sample with nitrogen 1.5 and every other field absent. -/
def soilN : Soil := ⟨none, none, some (3/2), none, none, none⟩

/-- A soil sample with pH present but 0 (falsy). -/
def soilPh0 : Soil := ⟨some 0, none, none, none, none, none⟩

/-- A backend soil object `{sand: 30, clay: 20}` with silt absent. -/
def raw30_20 : Soil := ⟨none, none, none, some 30, none, some 20⟩

/-- The health assessment produced for a sample where every field takes its
default. -/
def healthAllDefaults : HealthAssessment :=
  { score := 100, issues := [],
    strengths := [⟨"pH is in optimal range"⟩, ⟨"Good organic matter"⟩] }

/-- A first field click (a corn field). -/
def reqA : ClickReq := ⟨40, -98, "Corn", ⟨1, some 100, "Adams"⟩⟩

/-- A second field click (a soybean field). -/
def reqB : ClickReq := ⟨41, -97, "Soybeans", ⟨5, some 50, "Butler"⟩⟩

/-- An analysis response body with every part absent. -/
def emptyData : AnalysisData := ⟨none, none, none⟩

/-- A geocoding result for the first (older) search. -/
def itemA : NominatimItem := ⟨"Aville"⟩

/-- A geocoding result for the second (newer) search. -/
def itemB : NominatimItem := ⟨"Bville"⟩

/-! ## Shared evaluation lemmas -/

/-- Evaluation of `toFixed 2` at 1.5. -/
theorem toFixed_two_eval : toFixed 2 (3/2 : ℚ) = "1.50" := by
  simp only [toFixed]
  norm_num
  decide

/-! ## Claims -/

/-- C1: for an absent soil sample (no soil object at all) the revised
`getHealthScore` (part_000) returns an absent result (`null`), as the claim
demands, while the `App.jsx` revision returns the zero-valued assessment
`{score: 0, issues: [], strengths: []}` the claim rules out — the exact
behaviour part_000's own fix comment marks as the "0 Score" bug. -/
theorem c1_absent_soil_health :
    AppJsx.getHealthScore none = { score := 0, issues := [], strengths := [] } ∧
    Part000.getHealthScore none = none :=
  ⟨rfl, rfl⟩

/-- C5: at sand = 50, clay = 0 (a nonzero present sand), the `App.jsx`
`getTextureClass` returns `"Unknown"`, violating the claim's "Unknown
exactly when sand and clay are both absent/zero"; the revised part_000
function returns `"Sandy Loam"` as the threshold rules require. -/
theorem c5_texture_unknown_divergence :
    AppJsx.getTextureClass (some 50) (some 0) = "Unknown" ∧
    Part000.getTextureClass (some 50) (some 0) = "Sandy Loam" := by
  constructor
  · norm_num [AppJsx.getTextureClass, jsTruthy]
  · norm_num [Part000.getTextureClass, jsOr]

/-- C3: for every backend soil object with `silt` absent, normalization
sets `silt = max(0, 100 - sand - clay)` with an absent (or zero) sand or
clay treated as 0. -/
theorem c3_silt_completion (raw : Soil) (h : raw.silt = none) :
    (Part000.normalizeSoil (some raw)).silt
      = some (max 0 (100 - jsOr raw.sand 0 - jsOr raw.clay 0)) := by
  simp [Part000.normalizeSoil, h]

/-- C3 witness: `{sand: 30, clay: 20}` with silt absent normalizes to
`silt = 50`. -/
theorem c3_silt_completion_witness :
    raw30_20.silt = none ∧
    (Part000.normalizeSoil (some raw30_20)).silt = some 50 := by
  refine ⟨rfl, ?_⟩
  rw [c3_silt_completion raw30_20 rfl]
  norm_num [jsOr, raw30_20]

/-- C4 counterexample: for the soil sample with nitrogen 1.5, the
fertilizer plan's nitrogen recommendation carries `current = "1.50"` — the
observed nitrogen formatted to 2 decimal places (`toFixed(2)`), not to 1
decimal place (`"1.5"`) as the claim states. -/
theorem c4_counterexample :
    Part000.getFertilizerPlan (some soilN) =
      [{ nutrient := "Nitrogen (N)", priority := "HIGH", amount := "80-100 lbs/ac",
         fertilizer := "Urea (46-0-0)", current := "1.50", target := "3.5",
         timing := "Split application at planting" }] ∧
    ("1.50" : String) ≠ "1.5" := by
  constructor
  · norm_num [Part000.getFertilizerPlan, soilN, jsOr, toFixed_two_eval]
  · decide

/-- C4 (amended): for every soil sample whose effective nitrogen (after the
in-function falsy default `nitrogen || 2.5`) is below 2.0, the fertilizer
plan starts with the nitrogen recommendation: amount "80-100 lbs/ac",
fertilizer "Urea (46-0-0)", current = effective nitrogen formatted to 2
decimal places, target "3.5", timing "Split application at planting",
priority HIGH. -/
theorem c4_nitrogen_recommendation (soil : Soil) (h : jsOr soil.nitrogen 2.5 < 2) :
    ∃ rest, Part000.getFertilizerPlan (some soil) =
      { nutrient := "Nitrogen (N)", priority := "HIGH", amount := "80-100 lbs/ac",
        fertilizer := "Urea (46-0-0)", current := toFixed 2 (jsOr soil.nitrogen 2.5),
        target := "3.5", timing := "Split application at planting" } :: rest := by
  simp only [Part000.getFertilizerPlan]
  rw [if_pos h]
  split
  · exact ⟨_, rfl⟩
  · exact ⟨_, rfl⟩

/-- C4 witness: the amended nitrogen-recommendation shape at the concrete
sample with nitrogen 1.5. -/
theorem c4_nitrogen_recommendation_witness :
    jsOr soilN.nitrogen 2.5 < 2 ∧
    ∃ rest, Part000.getFertilizerPlan (some soilN) =
      { nutrient := "Nitrogen (N)", priority := "HIGH", amount := "80-100 lbs/ac",
        fertilizer := "Urea (46-0-0)", current := toFixed 2 (jsOr soilN.nitrogen 2.5),
        target := "3.5", timing := "Split application at planting" } :: rest :=
  ⟨by norm_num [jsOr, soilN], c4_nitrogen_recommendation soilN (by norm_num [jsOr, soilN])⟩

/-- C9: for every present soil sample the three deductions of the revised
`getHealthScore` total at most 50, the `max(0, ·)` clamp is a no-op (the
score equals `100 - deductions` exactly), and the score lies in
`[50, 100]`. -/
theorem c9_health_score_bounds (soil : Soil) (a : HealthAssessment)
    (h : Part000.getHealthScore (some soil) = some a) :
    Part000.healthDeductions soil ≤ 50 ∧
    a.score = 100 - Part000.healthDeductions soil ∧
    50 ≤ a.score ∧ a.score ≤ 100 := by
  simp only [Part000.getHealthScore, Option.some.injEq] at h
  subst h
  simp only [Part000.healthDeductions]
  split_ifs <;> norm_num

/-- C9 witness: the bounds at the all-absent sample, whose assessment is
the all-defaults one with score 100. -/
theorem c9_health_score_bounds_witness :
    Part000.getHealthScore (some soilAllAbsent) = some healthAllDefaults ∧
    (Part000.healthDeductions soilAllAbsent ≤ 50 ∧
     healthAllDefaults.score = 100 - Part000.healthDeductions soilAllAbsent ∧
     50 ≤ healthAllDefaults.score ∧ healthAllDefaults.score ≤ 100) :=
  have h : Part000.getHealthScore (some soilAllAbsent) = some healthAllDefaults := by
    norm_num [Part000.getHealthScore, soilAllAbsent, healthAllDefaults, jsOr]
  ⟨h, c9_health_score_bounds soilAllAbsent healthAllDefaults h⟩

/-- C10: in the revised functions a falsy (zero) pH inside a present sample
is replaced by 6.5 inside the function itself: `getHealthScore` records the
"pH is in optimal range" strength, applies no acidity deduction (every
issue is a soc/nitrogen one and the score drops only by those deductions),
and `getFertilizerPlan` emits no Ag Limestone recommendation. -/
theorem c10_falsy_ph_defaulted (soil : Soil) (h : soil.ph = some 0) :
    ∃ a, Part000.getHealthScore (some soil) = some a ∧
      (⟨"pH is in optimal range"⟩ : Strength) ∈ a.strengths ∧
      (∀ i ∈ a.issues, i.message = "Low organic matter" ∨ i.message = "Low Nitrogen") ∧
      a.score = 100 - ((if jsOr soil.soc 20 < 15 then (20 : ℚ) else 0)
        + (if jsOr soil.nitrogen 2.5 < 2 then (15 : ℚ) else 0)) ∧
      ∀ r ∈ Part000.getFertilizerPlan (some soil), r.fertilizer ≠ "Ag Limestone" := by
  have hph : jsOr soil.ph 6.5 = 6.5 := by simp [jsOr, h]
  refine ⟨_, rfl, ?_, ?_, ?_, ?_⟩
  · simp only [hph]
    norm_num
  · simp only [hph]
    norm_num
    rintro i (⟨-, rfl⟩ | ⟨-, rfl⟩) <;> simp
  · simp only [hph]
    norm_num
    split_ifs <;> norm_num
  · simp only [Part000.getFertilizerPlan, hph]
    norm_num
    intro hn
    simp

/-- C10 witness: the defaulted-pH behaviour at the concrete sample with
`ph = 0`. -/
theorem c10_falsy_ph_defaulted_witness :
    soilPh0.ph = some 0 ∧
    (∃ a, Part000.getHealthScore (some soilPh0) = some a ∧
      (⟨"pH is in optimal range"⟩ : Strength) ∈ a.strengths ∧
      (∀ i ∈ a.issues, i.message = "Low organic matter" ∨ i.message = "Low Nitrogen") ∧
      a.score = 100 - ((if jsOr soilPh0.soc 20 < 15 then (20 : ℚ) else 0)
        + (if jsOr soilPh0.nitrogen 2.5 < 2 then (15 : ℚ) else 0)) ∧
      ∀ r ∈ Part000.getFertilizerPlan (some soilPh0), r.fertilizer ≠ "Ag Limestone") :=
  ⟨rfl, c10_falsy_ph_defaulted soilPh0 rfl⟩

/-- C2 counterexample: two clicks (Corn then Soybeans) whose fetches
resolve out of order.  The superseded first fetch resolves last and its
result is published, so the state reflects the first click, not the second
(most recent) one. -/
theorem c2_counterexample :
    (runAnalysis initAnalysis
        [.click reqA, .click reqB,
         .response 1 (.ok emptyData), .response 0 (.ok emptyData)]).fieldData
      = some (Part000.buildFieldData reqA emptyData) ∧
    Part000.buildFieldData reqA emptyData ≠ Part000.buildFieldData reqB emptyData := by
  refine ⟨rfl, fun hEq => ?_⟩
  have hname := congrArg FieldData.cropName hEq
  simp [Part000.buildFieldData, reqA, reqB] at hname

/-- C2 (amended): the published `FieldAnalysisResult` reflects whichever
analysis fetch resolves last: an `ok` response of any in-flight fetch —
superseded or not — unconditionally overwrites the published state (the
code keeps no marker of the current click), and clears the loading flag. -/
theorem c2_last_resolved_fetch_wins (s : AnalysisState) (id : Nat) (req : ClickReq)
    (data : AnalysisData)
    (h : s.inflight.find? (fun r => r.1 == id) = some (id, req)) :
    (stepAnalysis s (.response id (.ok data))).fieldData
      = some (Part000.buildFieldData req data) ∧
    (stepAnalysis s (.response id (.ok data))).loading = false := by
  simp [stepAnalysis, applyAnalysisResponse, h]

/-- C2 witness: the overwrite at a concrete single in-flight fetch. -/
theorem c2_last_resolved_fetch_wins_witness :
    (startAnalysisFetch initAnalysis reqA).inflight.find? (fun r => r.1 == 0)
      = some (0, reqA) ∧
    ((stepAnalysis (startAnalysisFetch initAnalysis reqA) (.response 0 (.ok emptyData))).fieldData
      = some (Part000.buildFieldData reqA emptyData) ∧
    (stepAnalysis (startAnalysisFetch initAnalysis reqA) (.response 0 (.ok emptyData))).loading
      = false) :=
  ⟨rfl, c2_last_resolved_fetch_wins (startAnalysisFetch initAnalysis reqA) 0 reqA emptyData rfl⟩

/-- C6 counterexample: after typing "abc" (which schedules a debounced
lookup) and then "ab" (shorter than 3 characters), the pending debounced
request for "abc" is still scheduled — the short input did not cancel it —
and when the timer fires the network call for the older query "abc" is
issued. -/
theorem c6_counterexample :
    (runSearch initSearch [.input "abc", .input "ab"]).pendingTimer = some (0, "abc") ∧
    (runSearch initSearch [.input "abc", .input "ab", .timerFire 0]).issued = ["abc"] :=
  ⟨rfl, rfl⟩

/-- C6 (amended): a search input shorter than 3 characters immediately
hides the suggestion dropdown and schedules no new lookup, but changes
nothing else: in particular it does not cancel an already-pending debounced
request, which may still fire later and issue its network call for the
older, longer query. -/
theorem c6_short_input_behaviour (s : SearchState) (val : String) (h : val.length < 3) :
    handleAddressChange s val = { s with address := val, showSuggestions := false } := by
  simp [handleAddressChange, if_pos h]

/-- C6 witness: the short-input behaviour at the concrete input "ab". -/
theorem c6_short_input_behaviour_witness :
    "ab".length < 3 ∧
    handleAddressChange initSearch "ab"
      = { initSearch with address := "ab", showSuggestions := false } :=
  ⟨by decide, c6_short_input_behaviour initSearch "ab" (by decide)⟩

/-- C7 counterexample: the search for "abc" resolves after the later search
for "abcd" has already completed; the suggestions shown are those for
"abc", not those for the most recently scheduled "abcd". -/
theorem c7_counterexample :
    (runSearch initSearch
        [.input "abc", .timerFire 0, .input "abcd", .timerFire 1,
         .response 1 (.arrayData [itemB]), .response 0 (.arrayData [itemA])]).suggestions
      = [{ display_name := "Aville", rankScore := 0 }] ∧
    rankSuggestions "abcd" [itemB] = [{ display_name := "Bville", rankScore := 0 }] ∧
    ({ display_name := "Aville", rankScore := 0 } : RankedItem)
      ≠ { display_name := "Bville", rankScore := 0 } := by
  refine ⟨?_, ?_, ?_⟩ <;> decide

/-- C7 (amended): the visible suggestions are those of the most recently
resolved request: the response of any in-flight search — stale or not — is
applied unconditionally on arrival (the code keeps no marker of the current
request), so a late stale response overwrites a newer one. -/
theorem c7_response_applied_unconditionally (s : SearchState) (id : Nat) (val : String)
    (data : List NominatimItem)
    (h : s.inflight.find? (fun r => r.1 == id) = some (id, val)) :
    (stepSearch s (.response id (.arrayData data))).suggestions
      = rankSuggestions val data := by
  simp [stepSearch, applySearchResponse, h]

/-- C7 witness: the unconditional application at a concrete in-flight
search. -/
theorem c7_response_applied_unconditionally_witness :
    (fireTimer (handleAddressChange initSearch "abc") 0).inflight.find? (fun r => r.1 == 0)
      = some (0, "abc") ∧
    (stepSearch (fireTimer (handleAddressChange initSearch "abc") 0)
        (.response 0 (.arrayData [itemA]))).suggestions
      = rankSuggestions "abc" [itemA] :=
  ⟨rfl, c7_response_applied_unconditionally
    (fireTimer (handleAddressChange initSearch "abc") 0) 0 "abc" [itemA] rfl⟩

/-- C8: when the analysis fetch fails, the step clears the loading flag,
increments the user-visible failure counter (the `alert`), issues no new
request (no retry) and leaves the previously published
`FieldAnalysisResult` — and the drawer flag — unchanged. -/
theorem c8_failure_atomicity (s : AnalysisState) (id : Nat) (req : ClickReq) (msg : String)
    (h : s.inflight.find? (fun r => r.1 == id) = some (id, req)) :
    (stepAnalysis s (.response id (.error msg))).loading = false ∧
    (stepAnalysis s (.response id (.error msg))).fieldData = s.fieldData ∧
    (stepAnalysis s (.response id (.error msg))).alerts = s.alerts + 1 ∧
    (stepAnalysis s (.response id (.error msg))).issued = s.issued ∧
    (stepAnalysis s (.response id (.error msg))).showAnalytics = s.showAnalytics := by
  simp [stepAnalysis, applyAnalysisResponse, h]

/-- C8 witness: the failure handling at a concrete in-flight fetch. -/
theorem c8_failure_atomicity_witness :
    (startAnalysisFetch initAnalysis reqA).inflight.find? (fun r => r.1 == 0)
      = some (0, reqA) ∧
    ((stepAnalysis (startAnalysisFetch initAnalysis reqA)
        (.response 0 (.error "Server Error: Internal Server Error"))).loading = false ∧
    (stepAnalysis (startAnalysisFetch initAnalysis reqA)
        (.response 0 (.error "Server Error: Internal Server Error"))).fieldData
      = (startAnalysisFetch initAnalysis reqA).fieldData ∧
    (stepAnalysis (startAnalysisFetch initAnalysis reqA)
        (.response 0 (.error "Server Error: Internal Server Error"))).alerts
      = (startAnalysisFetch initAnalysis reqA).alerts + 1 ∧
    (stepAnalysis (startAnalysisFetch initAnalysis reqA)
        (.response 0 (.error "Server Error: Internal Server Error"))).issued
      = (startAnalysisFetch initAnalysis reqA).issued ∧
    (stepAnalysis (startAnalysisFetch initAnalysis reqA)
        (.response 0 (.error "Server Error: Internal Server Error"))).showAnalytics
      = (startAnalysisFetch initAnalysis reqA).showAnalytics) :=
  ⟨rfl, c8_failure_atomicity (startAnalysisFetch initAnalysis reqA) 0 reqA
    "Server Error: Internal Server Error" rfl⟩
